import Mathlib

/-!
  Verification of the bunqyy client's authentication/session core against its
  specification. The Rust source (src/api_context.rs, src/http.rs,
  src/signing.rs, src/common.rs) is shallowly embedded: structs become Lean
  structures, u64 becomes Nat, chrono timestamps become Int seconds, fallible
  paths become Except, and the network/filesystem effects become explicit
  inputs (the response JSON trees the provider would return, and a path-to-file
  map for the credential store). serde's derived JSON codecs are modelled at
  the JSON-value level, field by field, with serde's externally-tagged enum
  convention for the heterogeneous envelope entries.
-/

namespace Bunqyy

/-! ## JSON values

A JSON document tree, the level at which serde's derived codecs operate.
The constructor for chrono instants abstracts the external chrono serde codec
(an RFC3339 string rendering of the instant, injective in the instant); the
instant itself is the Unix timestamp in seconds. -/

inductive Json where
  | null : Json
  | bool (b : Bool) : Json
  | num (n : Nat) : Json
  | str (s : String) : Json
  | timestamp (t : Int) : Json
  | arr (elems : List Json) : Json
  | obj (fields : List (String × Json)) : Json

/-- Read a named field of a JSON object, as serde struct deserialization does
(unknown extra fields are ignored; a non-object is a type error). -/
def Json.getField (j : Json) (name : String) : Except String Json :=
  match j with
  | .obj fields =>
    match fields.lookup name with
    | some v => .ok v
    | none => .error ("missing field " ++ name)
  | _ => .error "invalid type: expected object"

/-- Decode a JSON string, as serde does for a String field. -/
def Json.asString : Json → Except String String
  | .str s => .ok s
  | _ => .error "invalid type: expected string"

/-- Decode a JSON number into a u64 field. -/
def Json.asNat : Json → Except String Nat
  | .num n => .ok n
  | _ => .error "invalid type: expected u64"

/-- Decode the chrono instant leaf into its Unix timestamp. -/
def Json.asTimestamp : Json → Except String Int
  | .timestamp t => .ok t
  | _ => .error "invalid type: expected datetime string"

/-- Decode a JSON array into its element list. -/
def Json.asArr : Json → Except String (List Json)
  | .arr elems => .ok elems
  | _ => .error "invalid type: expected array"

/-- Decode every element of a JSON array, failing if any element fails,
as serde does for a Vec field. -/
def decodeList {α : Type} (dec : Json → Except String α) :
    List Json → Except String (List α)
  | [] => .ok []
  | x :: xs => do
    let a ← dec x
    let as ← decodeList dec xs
    .ok (a :: as)

/-! ## Data model (src/api_context.rs, src/common.rs) -/

/-- A bunq error object (src/http.rs, struct BunqError). -/
structure BunqError where
  error_description : String
  error_description_translated : String
deriving DecidableEq

/-- The error type of the client. The first four constructors mirror the
BunqyyError enum of src/common.rs; the last two model the typed content of the
ad-hoc anyhow errors raised in src/api_context.rs: providerError models
the Error-envelope branches, and missingExpectedVariant the several
"... not found in response" errors for an absent required tagged entry. -/
inductive BunqyyError where
  | invalidEnvironment (raw : String) : BunqyyError
  | responseDeserialization (msg : String) : BunqyyError
  | missingDataToBuildApiContext : BunqyyError
  | csvError (msg : String) : BunqyyError
  | providerError (errors : List BunqError) : BunqyyError
  | missingExpectedVariant (what : String) : BunqyyError
deriving DecidableEq

/-- Environment enum (src/api_context.rs, enum Environment). -/
inductive Environment where
  | SANDBOX : Environment
  | PRODUCTION : Environment
deriving DecidableEq

/-- FromStr for Environment (src/api_context.rs lines 122-132): the match arms
SANDBOX | sandbox | empty | sb, then PRODUCTION | production | prod | PROD,
then the catch-all returning InvalidEnvironment with the raw input. -/
def Environment.from_str (s : String) : Except BunqyyError Environment :=
  if s = "SANDBOX" ∨ s = "sandbox" ∨ s = "" ∨ s = "sb" then
    .ok .SANDBOX
  else if s = "PRODUCTION" ∨ s = "production" ∨ s = "prod" ∨ s = "PROD" then
    .ok .PRODUCTION
  else
    .error (.invalidEnvironment s)

/-- InstallationContext (src/api_context.rs lines 163-169). -/
structure InstallationContext where
  token : String
  private_key_client : String
  public_key_client : String
  public_key_server : String
deriving DecidableEq

/-- UserInformation (src/api_context.rs lines 199-205); session_timeout in
seconds. -/
structure UserInformation where
  id : Nat
  display_name : String
  public_nick_name : String
  session_timeout : Nat
deriving DecidableEq

/-- SessionUserApiKey (src/api_context.rs lines 189-197). -/
structure SessionUserApiKey where
  id : Nat
  requested_by_user : UserInformation
  granted_by_user : UserInformation
deriving DecidableEq

/-- SessionContext (src/api_context.rs lines 173-179); valid_until is the
Unix timestamp of the chrono instant. -/
structure SessionContext where
  token : String
  valid_until : Int
  user_id : Nat
  user_api_key : SessionUserApiKey
deriving DecidableEq

/-- needs_to_be_refreshed (src/api_context.rs lines 184-186):
self.valid_until.timestamp() < Utc::now().timestamp() + 10, with the current
time passed explicitly as the now argument. -/
def SessionContext.needs_to_be_refreshed (s : SessionContext) (now : Int) : Bool :=
  decide (s.valid_until < now + 10)

/-- ApiContext, the full credential bundle (src/api_context.rs lines 136-142). -/
structure ApiContext where
  api_key : String
  environment : Environment
  installation_context : InstallationContext
  session_context : SessionContext
deriving DecidableEq

/-- with_session_context (src/api_context.rs lines 153-160): rebuild the
bundle keeping every field but the session context. -/
def ApiContext.with_session_context (c : ApiContext)
    (session_context : SessionContext) : ApiContext :=
  { api_key := c.api_key
    environment := c.environment
    installation_context := c.installation_context
    session_context := session_context }

/-! ## Endpoints (src/api_context.rs lines 23-38, src/common.rs line 7) -/

/-- BUNQ_BASE_URL constant (src/common.rs line 7). -/
def BUNQ_BASE_URL : String := "https://api.bunq.com/v1"

/-- The Endpoints enum (src/api_context.rs lines 23-27). -/
inductive Endpoints where
  | Installation : Endpoints
  | DeviceServer : Endpoints
  | SessionServer : Endpoints

/-- The Display impl for Endpoints (src/api_context.rs lines 29-38): each URL
is the base URL followed by the endpoint path. The impl reads no environment:
its only input is the endpoint variant. -/
def Endpoints.to_string : Endpoints → String
  | .Installation => BUNQ_BASE_URL ++ "/installation"
  | .DeviceServer => BUNQ_BASE_URL ++ "/device-server"
  | .SessionServer => BUNQ_BASE_URL ++ "/session-server"

/-! ## Envelope decoder (src/http.rs lines 58-106)

BunqResponse is an untagged union of the Success shape, an object with a
Response array, and the Error shape, an object with an Error array. serde
tries the Success variant first and falls back to the Error variant; when
neither matches it reports that the data matched no variant. -/

/-- BunqResponse (src/http.rs lines 92-97), with the payload structs
BunqResponseSuccess and BunqResponseError flattened to their single fields. -/
inductive BunqResponse (Content : Type) where
  | Success (response : List Content) : BunqResponse Content
  | Error (error : List BunqError) : BunqResponse Content

/-- Decode one error object of the Error envelope (src/http.rs lines 63-68). -/
def decodeBunqError (j : Json) : Except String BunqError := do
  let d ← (← j.getField "error_description").asString
  let t ← (← j.getField "error_description_translated").asString
  .ok { error_description := d, error_description_translated := t }

/-- Decode the Success shape: the Response field holding an array whose every
entry decodes as the content type (src/http.rs lines 78-82). -/
def decodeResponseSuccess {Content : Type} (dec : Json → Except String Content)
    (j : Json) : Except String (List Content) := do
  let f ← j.getField "Response"
  let elems ← f.asArr
  decodeList dec elems

/-- Decode the Error shape: the Error field holding an array of error objects
(src/http.rs lines 71-75). -/
def decodeResponseError (j : Json) : Except String (List BunqError) := do
  let f ← j.getField "Error"
  let elems ← f.asArr
  decodeList decodeBunqError elems

/-- process_response_content (src/http.rs lines 99-106): deserialize the body
into the untagged BunqResponse union, converting a serde failure into the
deserialization error. -/
def process_response_content {Content : Type} (dec : Json → Except String Content)
    (j : Json) : Except BunqyyError (BunqResponse Content) :=
  match decodeResponseSuccess dec j with
  | .ok response => .ok (.Success response)
  | .error _ =>
    match decodeResponseError j with
    | .ok error => .ok (.Error error)
    | .error _ =>
      .error (.responseDeserialization
        "data did not match any variant of untagged enum BunqResponse")

/-! ## Session negotiation (src/api_context.rs lines 404-552)

The helper structs declared inside create_session, and the decoding of its
Content enum: externally tagged, a single-key object whose key names the
variant; the enum has exactly the variants Token, UserApiKey and Id, with no
untagged fallback, so any other key is an unknown-variant error. -/

namespace Session

/-- Token (src/api_context.rs lines 442-449). -/
structure Token where
  id : Nat
  created : String
  updated : String
  token : String
deriving DecidableEq

/-- UserPerson (src/api_context.rs lines 475-485). -/
structure UserPerson where
  id : Nat
  display_name : String
  public_nick_name : String
  session_timeout : Nat
deriving DecidableEq

/-- RequestedByUser (src/api_context.rs lines 451-456): a wrapper holding the
field renamed UserPerson. -/
structure RequestedByUser where
  user_person : UserPerson
deriving DecidableEq

/-- GrantedByUser (src/api_context.rs lines 458-463). -/
structure GrantedByUser where
  user_person : UserPerson
deriving DecidableEq

/-- UserApiKey (src/api_context.rs lines 465-473). -/
structure UserApiKey where
  id : Nat
  requested_by_user : RequestedByUser
  granted_by_user : GrantedByUser
deriving DecidableEq

/-- Id (src/api_context.rs lines 436-440). -/
structure Id where
  id : Nat
deriving DecidableEq

/-- Content (src/api_context.rs lines 487-493): the closed envelope-entry
union of the session response. -/
inductive Content where
  | Token (t : Session.Token) : Content
  | UserApiKey (k : Session.UserApiKey) : Content
  | Id (i : Session.Id) : Content
deriving DecidableEq

/-- get_token (src/api_context.rs lines 496-501). -/
def Content.get_token : Content → Option Session.Token
  | .Token t => some t
  | _ => none

/-- get_user_api_key (src/api_context.rs lines 503-508). -/
def Content.get_user_api_key : Content → Option Session.UserApiKey
  | .UserApiKey k => some k
  | _ => none

/-- Decode a UserPerson object: the four renamed fields. -/
def decodeUserPerson (j : Json) : Except String UserPerson := do
  let id ← (← j.getField "id").asNat
  let display_name ← (← j.getField "display_name").asString
  let public_nick_name ← (← j.getField "public_nick_name").asString
  let session_timeout ← (← j.getField "session_timeout").asNat
  .ok { id := id, display_name := display_name,
        public_nick_name := public_nick_name, session_timeout := session_timeout }

/-- Decode a RequestedByUser wrapper: the field renamed UserPerson. -/
def decodeRequestedByUser (j : Json) : Except String RequestedByUser := do
  let up ← decodeUserPerson (← j.getField "UserPerson")
  .ok { user_person := up }

/-- Decode a GrantedByUser wrapper. -/
def decodeGrantedByUser (j : Json) : Except String GrantedByUser := do
  let up ← decodeUserPerson (← j.getField "UserPerson")
  .ok { user_person := up }

/-- Decode a UserApiKey object. -/
def decodeUserApiKey (j : Json) : Except String UserApiKey := do
  let id ← (← j.getField "id").asNat
  let r ← decodeRequestedByUser (← j.getField "requested_by_user")
  let g ← decodeGrantedByUser (← j.getField "granted_by_user")
  .ok { id := id, requested_by_user := r, granted_by_user := g }

/-- Decode a Token object: all four fields are required. -/
def decodeToken (j : Json) : Except String Token := do
  let id ← (← j.getField "id").asNat
  let created ← (← j.getField "created").asString
  let updated ← (← j.getField "updated").asString
  let token ← (← j.getField "token").asString
  .ok { id := id, created := created, updated := updated, token := token }

/-- Decode an Id object. -/
def decodeId (j : Json) : Except String Id := do
  let id ← (← j.getField "id").asNat
  .ok { id := id }

/-- Decode one envelope entry into the session Content enum, following serde's
externally-tagged convention: a single-key object whose key selects the
variant; a key naming no variant of this closed enum is an error. -/
def decodeContent (j : Json) : Except String Content :=
  match j with
  | .obj [(tag, payload)] =>
    if tag = "Token" then Content.Token <$> decodeToken payload
    else if tag = "UserApiKey" then Content.UserApiKey <$> decodeUserApiKey payload
    else if tag = "Id" then Content.Id <$> decodeId payload
    else .error ("unknown variant " ++ tag)
  | _ => .error "expected externally tagged enum Content"

end Session

/-- create_session (src/api_context.rs lines 404-552). The api_key and
installation_token form the outgoing signed request; the provider's reply is
passed in as the resp tree and the current time as now. The envelope is
decoded, an Error envelope or a missing Token or UserApiKey entry is a
failure, and otherwise the SessionContext is assembled: valid_until is now
plus the requesting user's session_timeout, and the granted_by_user field
copies the requesting user's id field (source line 545) while taking the
remaining fields from the granting user. -/
def create_session (api_key installation_token : String) (resp : Json)
    (now : Int) : Except BunqyyError SessionContext := do
  let r ← process_response_content Session.decodeContent resp
  let content ← match r with
    | .Success data => Except.ok data
    | .Error errors => Except.error (.providerError errors)
  let token := content.findSome? Session.Content.get_token
  let user_api_key := content.findSome? Session.Content.get_user_api_key
  match token, user_api_key with
  | some token, some user_api_key =>
    .ok { token := token.token
          valid_until := now + (user_api_key.requested_by_user.user_person.session_timeout : Int)
          user_id := user_api_key.id
          user_api_key :=
            { id := user_api_key.id
              requested_by_user :=
                { id := user_api_key.requested_by_user.user_person.id
                  display_name := user_api_key.requested_by_user.user_person.display_name
                  public_nick_name := user_api_key.requested_by_user.user_person.public_nick_name
                  session_timeout := user_api_key.requested_by_user.user_person.session_timeout }
              granted_by_user :=
                { id := user_api_key.requested_by_user.user_person.id
                  display_name := user_api_key.granted_by_user.user_person.display_name
                  public_nick_name := user_api_key.granted_by_user.user_person.public_nick_name
                  session_timeout := user_api_key.granted_by_user.user_person.session_timeout } } }
  | _, _ => .error (.missingExpectedVariant "Token or UserApiKey")

/-! ## Installation (src/api_context.rs lines 554-624)

The Content enum of get_installation_token has the tagged variants Token and
ServerPublicKey plus an untagged Unknown variant holding the raw value, so
entries of any other shape are tolerated: decoding an entry falls back to
Unknown instead of failing. -/

namespace Install

/-- Token (src/api_context.rs lines 565-568). -/
structure Token where
  token : String
deriving DecidableEq

/-- ServerPublicKey (src/api_context.rs lines 570-573). -/
structure ServerPublicKey where
  server_public_key : String
deriving DecidableEq

/-- Content (src/api_context.rs lines 557-563): tagged Token and
ServerPublicKey variants plus the untagged Unknown fallback over raw values. -/
inductive Content where
  | Token (t : Install.Token) : Content
  | ServerPublicKey (k : Install.ServerPublicKey) : Content
  | Unknown (v : Json) : Content

/-- The find closure over Token entries (src/api_context.rs lines 599-602). -/
def Content.get_token : Content → Option Install.Token
  | .Token t => some t
  | _ => none

/-- The find closure over ServerPublicKey entries (src/api_context.rs lines
604-607). -/
def Content.get_server_public_key : Content → Option Install.ServerPublicKey
  | .ServerPublicKey k => some k
  | _ => none

/-- Decode one installation envelope entry. A single-key object whose key
names a tagged variant decodes that variant; every other value falls back to
the untagged Unknown variant, so this decoder is total. -/
def decodeContent (j : Json) : Content :=
  match j with
  | .obj [(tag, payload)] =>
    if tag = "Token" then
      match payload.getField "token" >>= Json.asString with
      | .ok t => .Token { token := t }
      | .error _ => .Unknown j
    else if tag = "ServerPublicKey" then
      match payload.getField "server_public_key" >>= Json.asString with
      | .ok k => .ServerPublicKey { server_public_key := k }
      | .error _ => .Unknown j
    else .Unknown j
  | _ => .Unknown j

end Install

/-- get_installation_token (src/api_context.rs lines 555-624). The generated
keypair is passed in as its two PEM strings (key generation is the external
openssl dependency); the provider's reply to posting the public key is the
resp tree. Requires both a Token and a ServerPublicKey entry; the result
combines the received token, the generated keys and the provider's key. -/
def get_installation_token (resp : Json) (private_key_pem public_key_pem : String) :
    Except BunqyyError InstallationContext := do
  let r ← process_response_content (fun j => .ok (Install.decodeContent j)) resp
  let content ← match r with
    | .Success data => Except.ok data
    | .Error errors => Except.error (.providerError errors)
  let token := content.findSome? Install.Content.get_token
  let server_public_key := content.findSome? Install.Content.get_server_public_key
  match token, server_public_key with
  | some token, some server_public_key =>
    .ok { token := token.token
          private_key_client := private_key_pem
          public_key_client := public_key_pem
          public_key_server := server_public_key.server_public_key }
  | _, _ => .error (.missingExpectedVariant "Token or ServerPublicKey")

/-! ## Device registration (src/api_context.rs lines 339-400) -/

namespace Device

/-- Id (src/api_context.rs lines 379-381). -/
structure Id where
  id : Nat
deriving DecidableEq

/-- Content (src/api_context.rs lines 383-387): a struct, not an enum; every
entry must carry the field renamed Id. -/
structure Content where
  id : Device.Id
deriving DecidableEq

/-- Decode one device envelope entry: the required Id field holding an object
with a numeric id. -/
def decodeContent (j : Json) : Except String Content := do
  let f ← j.getField "Id"
  let n ← (← f.getField "id").asNat
  .ok { id := { id := n } }

end Device

/-- register_device (src/api_context.rs lines 339-400): decode the reply to
the signed device-server request, then take the first entry's inner id; an
empty Response list is the missing-Id failure. -/
def register_device (resp : Json) : Except BunqyyError Nat := do
  let r ← process_response_content Device.decodeContent resp
  let content ← match r with
    | .Success data => Except.ok data
    | .Error errors => Except.error (.providerError errors)
  match content.findSome? (fun c => some c.id.id) with
  | some id => .ok id
  | none => .error (.missingExpectedVariant "Id")

/-! ## Bootstrap and the credential store (src/api_context.rs lines 40-103,
207-335, src/common.rs lines 49-71) -/

/-- SetupContext (src/common.rs lines 49-55). -/
structure SetupContext where
  environment : Environment
  client_id : String
  client_secret : String
  storage_path : String

/-- The external effects consumed by one bootstrap run, passed in explicitly:
the access token produced by the oauth flow, the PEM strings of the generated
keypair, the provider's reply to each of the three handshake posts, and the
clock reading used when the session is assembled. -/
structure BootstrapNet where
  access_token : String
  private_key_pem : String
  public_key_pem : String
  installation_response : Json
  device_response : Json
  session_response : Json
  now : Int

/-- ContextBuilder (src/api_context.rs lines 49-55). -/
structure ContextBuilder where
  environment : Environment
  api_key : Option String
  installation_context : Option InstallationContext
  device_id : Option Nat
  session_context : Option SessionContext

/-- new_for_environment (src/api_context.rs lines 59-67). -/
def ContextBuilder.new_for_environment (environment : Environment) : ContextBuilder :=
  { environment := environment, api_key := none, installation_context := none,
    device_id := none, session_context := none }

/-- set_access_token (src/api_context.rs lines 69-71). -/
def ContextBuilder.set_access_token (b : ContextBuilder) (access_token : String) :
    ContextBuilder :=
  { b with api_key := some access_token }

/-- set_installation_context (src/api_context.rs lines 73-75). -/
def ContextBuilder.set_installation_context (b : ContextBuilder)
    (installation_context : InstallationContext) : ContextBuilder :=
  { b with installation_context := some installation_context }

/-- set_device_id (src/api_context.rs lines 77-79). -/
def ContextBuilder.set_device_id (b : ContextBuilder) (device_id : Nat) :
    ContextBuilder :=
  { b with device_id := some device_id }

/-- set_session_context (src/api_context.rs lines 81-83). -/
def ContextBuilder.set_session_context (b : ContextBuilder)
    (session_context : SessionContext) : ContextBuilder :=
  { b with session_context := some session_context }

/-- build (src/api_context.rs lines 86-102): an ApiContext exists only when
the access token, installation context and session context are all present. -/
def ContextBuilder.build (b : ContextBuilder) : Except BunqyyError ApiContext :=
  match b.api_key, b.installation_context, b.session_context with
  | some access_token, some installation_context, some session_context =>
    .ok { api_key := access_token, environment := b.environment,
          installation_context := installation_context,
          session_context := session_context }
  | _, _, _ => .error .missingDataToBuildApiContext

/-- setup_api_context (src/api_context.rs lines 285-330): the three-step
handshake threaded through the builder: oauth access token, installation,
device registration, session creation, then build. Any failing step aborts
the whole flow. -/
def setup_api_context (setup_context : SetupContext) (net : BootstrapNet) :
    Except BunqyyError ApiContext := do
  let api_key := net.access_token
  let b := ContextBuilder.new_for_environment setup_context.environment
  let b := b.set_access_token api_key
  let installation_context ←
    get_installation_token net.installation_response net.private_key_pem net.public_key_pem
  let b := b.set_installation_context installation_context
  let device_server_id ← register_device net.device_response
  let b := b.set_device_id device_server_id
  let session_context ←
    create_session api_key installation_context.token net.session_response net.now
  let b := b.set_session_context session_context
  b.build

/-! ## The derived JSON codec of the credential bundle

serde's derived Serialize and Deserialize for ApiContext and its nested
structs, at the JSON-value level: a struct serializes to an object with one
field per declared field in declaration order; deserialization reads each
required field by name, ignoring unknown fields; the fieldless Environment
variants serialize as their names. -/

/-- Serialize an Environment (unit variants become their name strings). -/
def encodeEnvironment : Environment → Json
  | .SANDBOX => .str "SANDBOX"
  | .PRODUCTION => .str "PRODUCTION"

/-- Deserialize an Environment. -/
def decodeEnvironment (j : Json) : Except String Environment := do
  let s ← j.asString
  if s = "SANDBOX" then .ok .SANDBOX
  else if s = "PRODUCTION" then .ok .PRODUCTION
  else .error "unknown variant of Environment"

/-- Serialize an InstallationContext. -/
def encodeInstallationContext (c : InstallationContext) : Json :=
  .obj [("token", .str c.token),
        ("private_key_client", .str c.private_key_client),
        ("public_key_client", .str c.public_key_client),
        ("public_key_server", .str c.public_key_server)]

/-- Deserialize an InstallationContext. -/
def decodeInstallationContext (j : Json) : Except String InstallationContext := do
  let token ← (← j.getField "token").asString
  let private_key_client ← (← j.getField "private_key_client").asString
  let public_key_client ← (← j.getField "public_key_client").asString
  let public_key_server ← (← j.getField "public_key_server").asString
  .ok { token := token, private_key_client := private_key_client,
        public_key_client := public_key_client,
        public_key_server := public_key_server }

/-- Serialize a UserInformation. -/
def encodeUserInformation (u : UserInformation) : Json :=
  .obj [("id", .num u.id),
        ("display_name", .str u.display_name),
        ("public_nick_name", .str u.public_nick_name),
        ("session_timeout", .num u.session_timeout)]

/-- Deserialize a UserInformation. -/
def decodeUserInformation (j : Json) : Except String UserInformation := do
  let id ← (← j.getField "id").asNat
  let display_name ← (← j.getField "display_name").asString
  let public_nick_name ← (← j.getField "public_nick_name").asString
  let session_timeout ← (← j.getField "session_timeout").asNat
  .ok { id := id, display_name := display_name,
        public_nick_name := public_nick_name,
        session_timeout := session_timeout }

/-- Serialize a SessionUserApiKey. -/
def encodeSessionUserApiKey (k : SessionUserApiKey) : Json :=
  .obj [("id", .num k.id),
        ("requested_by_user", encodeUserInformation k.requested_by_user),
        ("granted_by_user", encodeUserInformation k.granted_by_user)]

/-- Deserialize a SessionUserApiKey. -/
def decodeSessionUserApiKey (j : Json) : Except String SessionUserApiKey := do
  let id ← (← j.getField "id").asNat
  let requested_by_user ← decodeUserInformation (← j.getField "requested_by_user")
  let granted_by_user ← decodeUserInformation (← j.getField "granted_by_user")
  .ok { id := id, requested_by_user := requested_by_user,
        granted_by_user := granted_by_user }

/-- Serialize a SessionContext; valid_until goes through the chrono codec
leaf. -/
def encodeSessionContext (s : SessionContext) : Json :=
  .obj [("token", .str s.token),
        ("valid_until", .timestamp s.valid_until),
        ("user_id", .num s.user_id),
        ("user_api_key", encodeSessionUserApiKey s.user_api_key)]

/-- Deserialize a SessionContext. -/
def decodeSessionContext (j : Json) : Except String SessionContext := do
  let token ← (← j.getField "token").asString
  let valid_until ← (← j.getField "valid_until").asTimestamp
  let user_id ← (← j.getField "user_id").asNat
  let user_api_key ← decodeSessionUserApiKey (← j.getField "user_api_key")
  .ok { token := token, valid_until := valid_until, user_id := user_id,
        user_api_key := user_api_key }

/-- Serialize an ApiContext, the document persisted by the credential store. -/
def encodeApiContext (c : ApiContext) : Json :=
  .obj [("api_key", .str c.api_key),
        ("environment", encodeEnvironment c.environment),
        ("installation_context", encodeInstallationContext c.installation_context),
        ("session_context", encodeSessionContext c.session_context)]

/-- Deserialize an ApiContext. -/
def decodeApiContext (j : Json) : Except String ApiContext := do
  let api_key ← (← j.getField "api_key").asString
  let environment ← decodeEnvironment (← j.getField "environment")
  let installation_context ← decodeInstallationContext (← j.getField "installation_context")
  let session_context ← decodeSessionContext (← j.getField "session_context")
  .ok { api_key := api_key, environment := environment,
        installation_context := installation_context,
        session_context := session_context }

/-! ## The credential store and get_api_context (src/api_context.rs lines
207-260, 332-335)

The filesystem is a map from paths to stored documents; persisting writes the
serialized bundle at the path (the permission bits set afterwards are file
metadata outside this model), and the existence check of get_api_context is
presence in the map. -/

/-- The filesystem as seen by the credential store. -/
def Store : Type := String → Option Json

/-- context_file_exists (src/api_context.rs lines 333-335). -/
def context_file_exists (store : Store) (path : String) : Bool :=
  (store path).isSome

/-- persist_config (src/api_context.rs lines 230-244): write the serialized
bundle at the path. -/
def persist_config (context : ApiContext) (path : String) (store : Store) : Store :=
  fun p => if p = path then some (encodeApiContext context) else store p

/-- get_api_context (src/api_context.rs lines 210-228): when the context file
exists, read and deserialize it (a parse failure is the unwrap crash, modelled
as the deserialization error); otherwise run the full bootstrap and persist
the result, leaving the store untouched when any handshake step fails. -/
def get_api_context (setup_context : SetupContext) (net : BootstrapNet)
    (store : Store) : Except BunqyyError ApiContext × Store :=
  match store setup_context.storage_path with
  | some stored_config_json =>
    match decodeApiContext stored_config_json with
    | .ok api_context_from_storage => (.ok api_context_from_storage, store)
    | .error e => (.error (.responseDeserialization e), store)
  | none =>
    match setup_api_context setup_context net with
    | .ok api_context =>
      (.ok api_context, persist_config api_context setup_context.storage_path store)
    | .error e => (.error e, store)

/-- refresh_session (src/api_context.rs lines 262-283): snapshot the shared
bundle, re-run only the session negotiation with the snapshot's access token
and installation context, and on success commit the snapshot with the new
session context swapped in; on failure the shared bundle is left as it was.
The returned pair is the call's result and the shared bundle afterwards. -/
def refresh_session (api_context : ApiContext) (session_response : Json)
    (now : Int) : Except BunqyyError Unit × ApiContext :=
  let local_api_context := api_context
  match create_session local_api_context.api_key
      local_api_context.installation_context.token session_response now with
  | .ok new_session => (.ok (), local_api_context.with_session_context new_session)
  | .error e => (.error e, api_context)

/-! ## Signing scheme (src/signing.rs)

The RSA/SHA-256 signing itself is the external openssl dependency; it is
passed in as a function from the private-key PEM and the data bytes to the
raw signature bytes. What the repository adds, and what is embedded
concretely, is the standard base64 encoding of the raw signature
(openssl base64 encode_block: the 64-character alphabet, 3 bytes per 4
output characters, padded with = to a multiple of 4). Bytes are Nat values
below 256. -/

/-- The standard base64 alphabet. -/
def base64Alphabet : List Char :=
  "ABCDEFGHIJKLMNOPQRSTUVWXYZabcdefghijklmnopqrstuvwxyz0123456789+/".toList

/-- The alphabet character of a 6-bit group. -/
def b64Char (n : Nat) : Char := base64Alphabet.getD n 'A'

/-- Standard base64 encoding of a byte list: each 3-byte chunk becomes 4
characters; a trailing chunk of 1 or 2 bytes becomes 4 characters with = as
padding. -/
def base64Chunks : List Nat → List Char
  | [] => []
  | [b1] =>
    [b64Char (b1 / 4), b64Char (b1 % 4 * 16), '=', '=']
  | [b1, b2] =>
    [b64Char (b1 / 4), b64Char (b1 % 4 * 16 + b2 / 16), b64Char (b2 % 16 * 4), '=']
  | b1 :: b2 :: b3 :: rest =>
    b64Char (b1 / 4) :: b64Char (b1 % 4 * 16 + b2 / 16) ::
    b64Char (b2 % 16 * 4 + b3 / 64) :: b64Char (b3 % 64) :: base64Chunks rest

/-- encode_block: the base64 text of a byte list. -/
def base64_encode_block (bytes : List Nat) : String :=
  String.mk (base64Chunks bytes)

/-- An RSA signing primitive: from a private-key PEM and the data bytes to
the raw signature bytes. This stands for the openssl signer used by
sign_bytes_data_to_string; it is a parameter everywhere, constrained only
where a claim needs the RSA fact that a 2048-bit key yields 256-byte
signatures. -/
def RsaSigner : Type := String → List Nat → List Nat

/-- sign_bytes_data_to_string (src/signing.rs lines 27-38): sign the data
with the private key, base64-encode the raw signature. -/
def sign_bytes_data_to_string (openssl : RsaSigner) (data : List Nat)
    (private_key_pem : String) : String :=
  base64_encode_block (openssl private_key_pem data)

/-- create_signer (src/signing.rs lines 46-48): a signer bound to one
private key. -/
def create_signer (openssl : RsaSigner) (private_key_pem : String) :
    List Nat → String :=
  fun data => sign_bytes_data_to_string openssl data private_key_pem

/-! ## Request middleware (src/http.rs lines 18-32, 108-183) -/

/-- WellKnownBunqHeaders (src/http.rs lines 18-21). -/
inductive WellKnownBunqHeaders where
  | Authentication : WellKnownBunqHeaders
  | Signature : WellKnownBunqHeaders

/-- to_string (src/http.rs lines 26-31): the literal header names. -/
def WellKnownBunqHeaders.to_string : WellKnownBunqHeaders → String
  | .Authentication => "X-Bunq-Client-Authentication"
  | .Signature => "X-Bunq-Client-Signature"

/-- An outgoing HTTP request as the middleware sees it: its URL, its header
list in append order, and an optional raw body. -/
structure Request where
  url : String
  headers : List (String × String)
  body : Option (List Nat)

/-- SigningMiddleware handle (src/http.rs lines 116-151): when the request
carries a body, append the Signature header holding the installation private
key's signature over the raw body bytes; then always append the
Authentication header holding the current session token. -/
def signing_middleware_handle (openssl : RsaSigner) (context : ApiContext)
    (req : Request) : Request :=
  let req1 :=
    match req.body with
    | some body_bytes =>
      let key := context.installation_context.private_key_client
      let signer := create_signer openssl key
      let signed_body := signer body_bytes
      { req with headers :=
          req.headers ++ [(WellKnownBunqHeaders.Signature.to_string, signed_body)] }
    | none => req
  { req1 with headers :=
      req1.headers ++
        [(WellKnownBunqHeaders.Authentication.to_string, context.session_context.token)] }

/-- Whether a fallible decoding step succeeded. -/
def exceptOk {ε α : Type} : Except ε α → Bool
  | .ok _ => true
  | .error _ => false

end Bunqyy

deriving instance DecidableEq for Except

namespace Bunqyy

/-! ## Theorems -/

/-- Roundtrip of the derived bundle codec: deserializing a serialized
ApiContext returns it unchanged. -/
theorem decodeApiContext_encodeApiContext (ctx : ApiContext) :
    decodeApiContext (encodeApiContext ctx) = .ok ctx := by
  obtain ⟨a, env, ic, sc⟩ := ctx
  cases env <;> rfl

/-- C1: needs_to_be_refreshed is false at valid_until = now + 11 and true at
valid_until = now + 9, as the claim states; but at exactly valid_until =
now + 10 the source's strict comparison (valid_until < now + 10) resolves to
false, not true as the claim states: the session is not yet considered in
need of refresh at the exact threshold. This is the claim amended in its
third part. -/
theorem claim_C1_refresh_boundary (s : SessionContext) (now : Int) :
    (s.valid_until = now + 11 → s.needs_to_be_refreshed now = false) ∧
    (s.valid_until = now + 9 → s.needs_to_be_refreshed now = true) ∧
    (s.valid_until = now + 10 → s.needs_to_be_refreshed now = false) := by
  refine ⟨fun h => ?_, fun h => ?_, fun h => ?_⟩ <;>
    simp only [SessionContext.needs_to_be_refreshed, h, decide_eq_true_eq,
      decide_eq_false_iff_not] <;> omega

/-- A concrete session whose valid_until is exactly ten seconds past the
reference instant 1000. -/
def c1Session : SessionContext :=
  { token := "tok", valid_until := 1010, user_id := 1,
    user_api_key :=
      { id := 1,
        requested_by_user :=
          { id := 1, display_name := "", public_nick_name := "", session_timeout := 0 },
        granted_by_user :=
          { id := 1, display_name := "", public_nick_name := "", session_timeout := 0 } } }

/-- C1 counterexample: at valid_until exactly equal to now + 10 the predicate
evaluates to false, refuting the claim's statement that the threshold
resolves to true. -/
theorem claim_C1_counterexample :
    c1Session.valid_until = 1000 + 10 ∧ c1Session.needs_to_be_refreshed 1000 = false :=
  ⟨rfl, rfl⟩

/-- A concrete session eleven seconds from expiry at instant 2000. -/
def c1SessionEleven : SessionContext :=
  { c1Session with valid_until := 2011 }

/-- A concrete session nine seconds from expiry at instant 2000. -/
def c1SessionNine : SessionContext :=
  { c1Session with valid_until := 2009 }

/-- C1 witness: the amended boundary theorem applied at concrete sessions
eleven and nine seconds from expiry. -/
theorem claim_C1_witness :
    c1SessionEleven.needs_to_be_refreshed 2000 = false ∧
    c1SessionNine.needs_to_be_refreshed 2000 = true :=
  ⟨(claim_C1_refresh_boundary c1SessionEleven 2000).1 (by decide),
   (claim_C1_refresh_boundary c1SessionNine 2000).2.1 (by decide)⟩

/-- C9: whatever the configured environment, the three handshake endpoint
URLs are the fixed strings built from the single base URL; the URL
construction reads nothing but the endpoint variant, so the environment has
no effect on any endpoint URL. -/
theorem claim_C9_fixed_endpoints (env : Environment) :
    Endpoints.Installation.to_string = "https://api.bunq.com/v1/installation" ∧
    Endpoints.DeviceServer.to_string = "https://api.bunq.com/v1/device-server" ∧
    Endpoints.SessionServer.to_string = "https://api.bunq.com/v1/session-server" :=
  ⟨rfl, rfl, rfl⟩

/-- C10: parsing an environment string succeeds exactly on SANDBOX, sandbox,
the empty string and sb (yielding SANDBOX) and on PRODUCTION, production,
prod and PROD (yielding PRODUCTION); every other input yields
InvalidEnvironment carrying the raw string. -/
theorem claim_C10_environment_parsing (s : String) :
    (Environment.from_str s = .ok .SANDBOX ↔
      s = "SANDBOX" ∨ s = "sandbox" ∨ s = "" ∨ s = "sb") ∧
    (Environment.from_str s = .ok .PRODUCTION ↔
      s = "PRODUCTION" ∨ s = "production" ∨ s = "prod" ∨ s = "PROD") ∧
    (¬(s = "SANDBOX" ∨ s = "sandbox" ∨ s = "" ∨ s = "sb" ∨
        s = "PRODUCTION" ∨ s = "production" ∨ s = "prod" ∨ s = "PROD") →
      Environment.from_str s = .error (.invalidEnvironment s)) := by
  by_cases h1 : s = "SANDBOX" ∨ s = "sandbox" ∨ s = "" ∨ s = "sb"
  · rcases h1 with rfl | rfl | rfl | rfl <;> decide
  · by_cases h2 : s = "PRODUCTION" ∨ s = "production" ∨ s = "prod" ∨ s = "PROD"
    · rcases h2 with rfl | rfl | rfl | rfl <;> decide
    · have he : Environment.from_str s = .error (.invalidEnvironment s) := by
        simp only [Environment.from_str, h1, h2, if_false]
      refine ⟨?_, ?_, fun _ => he⟩ <;> simp [he, h1, h2]

/-- C10 witness: the characterization applied at the concrete inputs sb and
dev, discharging the membership hypotheses by computation. -/
theorem claim_C10_witness :
    Environment.from_str "sb" = .ok .SANDBOX ∧
    Environment.from_str "dev" = .error (.invalidEnvironment "dev") :=
  ⟨(claim_C10_environment_parsing "sb").1.mpr (by decide),
   (claim_C10_environment_parsing "dev").2.2 (by decide)⟩

/-- The session-negotiation response envelope of the end-to-end scenario: a
Token entry whose token is S1 and a UserApiKey entry with id 42, requesting
user 7 and granting user 8 (the Token entry carries the further fields its
decoder requires). -/
def c2Envelope : Json :=
  .obj [("Response", .arr
    [.obj [("Token", .obj
       [("id", .num 1), ("created", .str "2023-01-01"),
        ("updated", .str "2023-01-01"), ("token", .str "S1")])],
     .obj [("UserApiKey", .obj
       [("id", .num 42),
        ("requested_by_user", .obj [("UserPerson", .obj
          [("id", .num 7), ("display_name", .str "A"),
           ("public_nick_name", .str "a"), ("session_timeout", .num 3600)])]),
        ("granted_by_user", .obj [("UserPerson", .obj
          [("id", .num 8), ("display_name", .str "B"),
           ("public_nick_name", .str "b"), ("session_timeout", .num 3600)])])])]])]

/-- C2: on the scenario envelope, create_session returns token S1, user_id
42, valid_until now + 3600 and requested_by_user.id 7 as the claim states —
but granted_by_user.id comes out as 7, not 8: the source copies the
requesting user's id into the granted_by_user field (src/api_context.rs line
545) although every other granted_by_user field is taken from the granting
user, so the claim's final conjunct fails on the code. -/
theorem claim_C2_create_session_scenario :
    create_session "key" "installation-token" c2Envelope 1000 =
      .ok { token := "S1", valid_until := 4600, user_id := 42,
            user_api_key :=
              { id := 42,
                requested_by_user :=
                  { id := 7, display_name := "A", public_nick_name := "a",
                    session_timeout := 3600 },
                granted_by_user :=
                  { id := 7, display_name := "B", public_nick_name := "b",
                    session_timeout := 3600 } } } := by
  rfl

/-- The session envelope of claim C3 as the claim states it: a well-formed
Token entry, a well-formed UserApiKey entry, and one additional entry of an
unrecognized variant shape. -/
def c3Envelope : Json :=
  .obj [("Response", .arr
    [.obj [("Token", .obj
       [("id", .num 2), ("created", .str "2023-02-01"),
        ("updated", .str "2023-02-01"), ("token", .str "S9")])],
     .obj [("UserApiKey", .obj
       [("id", .num 5),
        ("requested_by_user", .obj [("UserPerson", .obj
          [("id", .num 3), ("display_name", .str "C"),
           ("public_nick_name", .str "c"), ("session_timeout", .num 600)])]),
        ("granted_by_user", .obj [("UserPerson", .obj
          [("id", .num 4), ("display_name", .str "D"),
           ("public_nick_name", .str "d"), ("session_timeout", .num 600)])])])],
     .obj [("SomethingElse", .obj [])]])]

/-- C3 counterexample: the session Content enum is closed (Token, UserApiKey,
Id, with no untagged fallback), so an envelope holding a Token entry and a
UserApiKey entry plus one entry of an unrecognized variant shape fails to
decode: create_session rejects the whole envelope with a deserialization
error instead of tolerating the unknown entry. -/
theorem claim_C3_counterexample :
    create_session "key" "installation-token" c3Envelope 0 =
      .error (.responseDeserialization
        "data did not match any variant of untagged enum BunqResponse") := by
  rfl

/-- Binding a successful Except step runs the continuation. -/
theorem exceptBind_ok {ε α β : Type} (a : α) (f : α → Except ε β) :
    (Except.ok a : Except ε α) >>= f = f a := rfl

/-- Binding a failed Except step propagates the failure. -/
theorem exceptBind_error {ε α β : Type} (e : ε) (f : α → Except ε β) :
    (Except.error e : Except ε α) >>= f = .error e := rfl

/-- A list of entries that each decode as some session Content variant
decodes as a whole. -/
theorem decodeList_ok_of_all_ok {α : Type} (dec : Json → Except String α) :
    ∀ (l : List Json), (∀ e ∈ l, exceptOk (dec e) = true) →
      ∃ as, decodeList dec l = .ok as
  | [], _ => ⟨[], rfl⟩
  | x :: xs, h => by
    have hx := h x (by simp)
    obtain ⟨a, ha⟩ : ∃ a, dec x = .ok a := by
      cases hdec : dec x with
      | ok a => exact ⟨a, rfl⟩
      | error e => rw [hdec] at hx; simp [exceptOk] at hx
    obtain ⟨as, has⟩ := decodeList_ok_of_all_ok dec xs (fun e he => h e (by simp [he]))
    exact ⟨a :: as, by simp [decodeList, ha, has, exceptBind_ok]⟩

/-- C3 amended: the decoder tolerates additional entries exactly when they
are of the recognized variant shapes Token, UserApiKey or Id: an envelope
whose every entry decodes as one of those variants decodes successfully as a
whole (while an entry of any unrecognized shape fails the whole envelope, as
the counterexample shows). -/
theorem claim_C3_recognized_entries_decode (entries : List Json)
    (h : ∀ e ∈ entries, exceptOk (Session.decodeContent e) = true) :
    ∃ cs, process_response_content Session.decodeContent
        (.obj [("Response", .arr entries)]) = .ok (.Success cs) := by
  obtain ⟨cs, hcs⟩ := decodeList_ok_of_all_ok Session.decodeContent entries h
  refine ⟨cs, ?_⟩
  simp [process_response_content, decodeResponseSuccess, Json.getField,
    Json.asArr, hcs, exceptBind_ok]

/-- The C3 witness envelope entries: a Token entry, a UserApiKey entry, and
one additional entry of the recognized Id shape. -/
def c3WitnessEntries : List Json :=
  [.obj [("Token", .obj
     [("id", .num 2), ("created", .str "2023-02-01"),
      ("updated", .str "2023-02-01"), ("token", .str "S9")])],
   .obj [("UserApiKey", .obj
     [("id", .num 5),
      ("requested_by_user", .obj [("UserPerson", .obj
        [("id", .num 3), ("display_name", .str "C"),
         ("public_nick_name", .str "c"), ("session_timeout", .num 600)])]),
      ("granted_by_user", .obj [("UserPerson", .obj
        [("id", .num 4), ("display_name", .str "D"),
         ("public_nick_name", .str "d"), ("session_timeout", .num 600)])])])],
   .obj [("Id", .obj [("id", .num 77)])]]

/-- C3 witness: the amended theorem applied to the concrete entry list with
an additional Id entry; every entry is of a recognized shape, discharged by
computation. -/
theorem claim_C3_witness :
    ∃ cs, process_response_content Session.decodeContent
        (.obj [("Response", .arr c3WitnessEntries)]) = .ok (.Success cs) :=
  claim_C3_recognized_entries_decode c3WitnessEntries (by decide)

/-- C4: persisting a bundle to the setup's storage path and then loading
through get_api_context returns the same bundle: the serialize-then-
deserialize round trip through the credential store is the identity, for
every bundle, path and prior store contents. -/
theorem claim_C4_persist_load_roundtrip (ctx : ApiContext)
    (setup_context : SetupContext) (net : BootstrapNet) (store : Store) :
    (get_api_context setup_context net
        (persist_config ctx setup_context.storage_path store)).1 = .ok ctx := by
  have hstore : persist_config ctx setup_context.storage_path store
      setup_context.storage_path = some (encodeApiContext ctx) := by
    simp [persist_config]
  simp only [get_api_context]
  rw [hstore]
  simp [decodeApiContext_encodeApiContext]

/-- The base64 text of a byte list has four characters per started 3-byte
chunk. -/
theorem base64Chunks_length :
    ∀ (l : List Nat), (base64Chunks l).length = 4 * ((l.length + 2) / 3)
  | [] => rfl
  | [_] => by simp [base64Chunks]
  | [_, _] => by simp [base64Chunks]
  | _ :: _ :: _ :: rest => by
    have ih := base64Chunks_length rest
    simp only [base64Chunks, List.length_cons, ih]
    omega

/-- C5: for every signing primitive that (like openssl RSA with a 2048-bit
key, whose modulus is 256 bytes) produces 256-byte raw signatures, the
base64-encoded signature string returned by sign_bytes_data_to_string has
length exactly 344 characters, for every input byte string including the
empty one: the length is independent of the data. -/
theorem claim_C5_signature_length (openssl : RsaSigner) (private_key_pem : String)
    (h2048 : ∀ data, (openssl private_key_pem data).length = 256)
    (data : List Nat) :
    (sign_bytes_data_to_string openssl data private_key_pem).length = 344 := by
  show (base64Chunks (openssl private_key_pem data)).length = 344
  rw [base64Chunks_length, h2048]

/-- C5 witness: the length theorem applied to a concrete 256-byte signer on
the empty input, discharging the length hypothesis by computation. -/
theorem claim_C5_witness :
    (sign_bytes_data_to_string (fun _ _ => List.replicate 256 0) [] "pem").length
      = 344 :=
  claim_C5_signature_length (fun _ _ => List.replicate 256 0) "pem"
    (fun _ => by rw [List.length_replicate]) []

/-- C6: when the context file is absent and the installation response's
decoded Response entries hold no ServerPublicKey variant, get_api_context
fails with the missing-expected-variant error of the installation step and
returns the store exactly as it was: no file is written on a failed
handshake step. -/
theorem claim_C6_bootstrap_failure_persists_nothing (setup_context : SetupContext)
    (net : BootstrapNet) (store : Store) (content : List Install.Content)
    (hno_file : store setup_context.storage_path = none)
    (hdecoded : process_response_content (fun j => .ok (Install.decodeContent j))
      net.installation_response = .ok (.Success content))
    (hno_server_key : content.findSome? Install.Content.get_server_public_key = none) :
    get_api_context setup_context net store =
      (.error (.missingExpectedVariant "Token or ServerPublicKey"), store) := by
  have hinstall : get_installation_token net.installation_response
      net.private_key_pem net.public_key_pem =
      .error (.missingExpectedVariant "Token or ServerPublicKey") := by
    simp only [get_installation_token, hdecoded, exceptBind_ok, hno_server_key]
    cases content.findSome? Install.Content.get_token <;> rfl
  have hsetup : setup_api_context setup_context net =
      .error (.missingExpectedVariant "Token or ServerPublicKey") := by
    simp only [setup_api_context, hinstall, exceptBind_error]
  simp only [get_api_context, hno_file, hsetup]

/-- The concrete C6 setup: sandbox environment, a fixed storage path. -/
def c6Setup : SetupContext :=
  { environment := .SANDBOX, client_id := "cid", client_secret := "cs",
    storage_path := "/tmp/context.json" }

/-- The concrete C6 bootstrap effects: the installation response carries a
Token entry but no ServerPublicKey entry. -/
def c6Net : BootstrapNet :=
  { access_token := "atoken", private_key_pem := "priv", public_key_pem := "pub",
    installation_response :=
      .obj [("Response", .arr [.obj [("Token", .obj [("token", .str "T1")])]])],
    device_response := .null, session_response := .null, now := 0 }

/-- The concrete C6 store: an empty filesystem. -/
def c6Store : Store := fun _ => none

/-- C6 witness: the failure theorem applied at the concrete setup whose
installation response lacks the ServerPublicKey variant; all three
hypotheses are discharged by computation. -/
theorem claim_C6_witness :
    get_api_context c6Setup c6Net c6Store =
      (.error (.missingExpectedVariant "Token or ServerPublicKey"), c6Store) :=
  claim_C6_bootstrap_failure_persists_nothing c6Setup c6Net c6Store
    [Install.Content.Token { token := "T1" }] rfl rfl rfl

/-- C7: refresh_session swaps only the session context: whenever the session
negotiation succeeds the refreshed bundle keeps the prior api_key,
environment and installation_context and carries exactly the new session
context; whenever it fails the error is returned and the whole bundle,
including the stale session context, is exactly what it was. -/
theorem claim_C7_refresh_frame (ctx : ApiContext) (session_response : Json)
    (now : Int) :
    (∀ s, create_session ctx.api_key ctx.installation_context.token
        session_response now = .ok s →
      (refresh_session ctx session_response now).1 = .ok () ∧
      (refresh_session ctx session_response now).2.api_key = ctx.api_key ∧
      (refresh_session ctx session_response now).2.environment = ctx.environment ∧
      (refresh_session ctx session_response now).2.installation_context
        = ctx.installation_context ∧
      (refresh_session ctx session_response now).2.session_context = s) ∧
    (∀ e, create_session ctx.api_key ctx.installation_context.token
        session_response now = .error e →
      (refresh_session ctx session_response now).1 = .error e ∧
      (refresh_session ctx session_response now).2 = ctx) := by
  constructor
  · intro s hs
    simp [refresh_session, hs, ApiContext.with_session_context]
  · intro e he
    simp [refresh_session, he]

/-- The concrete C7 bundle before a refresh. -/
def c7Ctx : ApiContext :=
  { api_key := "key7", environment := .SANDBOX,
    installation_context :=
      { token := "itok7", private_key_client := "priv7",
        public_key_client := "pub7", public_key_server := "spk7" },
    session_context :=
      { token := "stale", valid_until := 0, user_id := 1,
        user_api_key :=
          { id := 1,
            requested_by_user :=
              { id := 1, display_name := "", public_nick_name := "",
                session_timeout := 0 },
            granted_by_user :=
              { id := 1, display_name := "", public_nick_name := "",
                session_timeout := 0 } } } }

/-- The concrete C7 session-negotiation response. -/
def c7Envelope : Json :=
  .obj [("Response", .arr
    [.obj [("Token", .obj
       [("id", .num 3), ("created", .str "2023-03-01"),
        ("updated", .str "2023-03-01"), ("token", .str "S2")])],
     .obj [("UserApiKey", .obj
       [("id", .num 43),
        ("requested_by_user", .obj [("UserPerson", .obj
          [("id", .num 9), ("display_name", .str "E"),
           ("public_nick_name", .str "e"), ("session_timeout", .num 1800)])]),
        ("granted_by_user", .obj [("UserPerson", .obj
          [("id", .num 10), ("display_name", .str "F"),
           ("public_nick_name", .str "f"), ("session_timeout", .num 1800)])])])]])]

/-- The session context the concrete C7 refresh installs. -/
def c7NewSession : SessionContext :=
  { token := "S2", valid_until := 6800, user_id := 43,
    user_api_key :=
      { id := 43,
        requested_by_user :=
          { id := 9, display_name := "E", public_nick_name := "e",
            session_timeout := 1800 },
        granted_by_user :=
          { id := 9, display_name := "F", public_nick_name := "f",
            session_timeout := 1800 } } }

/-- C7 witness: the frame theorem applied at the concrete bundle and
response, the successful-negotiation hypothesis discharged by computation. -/
theorem claim_C7_witness :
    (refresh_session c7Ctx c7Envelope 5000).1 = .ok () ∧
    (refresh_session c7Ctx c7Envelope 5000).2.api_key = c7Ctx.api_key ∧
    (refresh_session c7Ctx c7Envelope 5000).2.environment = c7Ctx.environment ∧
    (refresh_session c7Ctx c7Envelope 5000).2.installation_context
      = c7Ctx.installation_context ∧
    (refresh_session c7Ctx c7Envelope 5000).2.session_context = c7NewSession :=
  (claim_C7_refresh_frame c7Ctx c7Envelope 5000).1 c7NewSession (by rfl)

/-- C8: the signing middleware always appends the Authentication header
carrying the current session token; when and only when the request carries a
body it additionally appends, before it, the Signature header carrying the
installation private key's signature over the raw body bytes; a bodyless
request gains the Authentication header and nothing else. -/
theorem claim_C8_signing_middleware (openssl : RsaSigner) (context : ApiContext)
    (req : Request) :
    (∀ body_bytes, req.body = some body_bytes →
      (signing_middleware_handle openssl context req).headers =
        req.headers ++
          [(WellKnownBunqHeaders.Signature.to_string,
            create_signer openssl context.installation_context.private_key_client
              body_bytes),
           (WellKnownBunqHeaders.Authentication.to_string,
            context.session_context.token)]) ∧
    (req.body = none →
      (signing_middleware_handle openssl context req).headers =
        req.headers ++
          [(WellKnownBunqHeaders.Authentication.to_string,
            context.session_context.token)]) := by
  constructor
  · intro body_bytes hb
    simp [signing_middleware_handle, hb]
  · intro hb
    simp [signing_middleware_handle, hb]

/-- The concrete C8 bundle. -/
def c8Ctx : ApiContext :=
  { api_key := "key8", environment := .PRODUCTION,
    installation_context :=
      { token := "itok8", private_key_client := "privpem",
        public_key_client := "pub8", public_key_server := "spk8" },
    session_context :=
      { token := "sess-token", valid_until := 0, user_id := 1,
        user_api_key :=
          { id := 1,
            requested_by_user :=
              { id := 1, display_name := "", public_nick_name := "",
                session_timeout := 0 },
            granted_by_user :=
              { id := 1, display_name := "", public_nick_name := "",
                session_timeout := 0 } } } }

/-- The concrete C8 signing primitive. -/
def c8Openssl : RsaSigner := fun _ _ => [0, 1, 2]

/-- A concrete request with a body. -/
def c8ReqWithBody : Request :=
  { url := "https://api.bunq.com/v1/user", headers := [], body := some [10, 20] }

/-- A concrete request without a body. -/
def c8ReqNoBody : Request :=
  { url := "https://api.bunq.com/v1/user", headers := [], body := none }

/-- C8 witness: the middleware theorem applied at a concrete request with a
body and one without, each hypothesis discharged by computation. -/
theorem claim_C8_witness :
    (signing_middleware_handle c8Openssl c8Ctx c8ReqWithBody).headers =
      [("X-Bunq-Client-Signature", create_signer c8Openssl "privpem" [10, 20]),
       ("X-Bunq-Client-Authentication", "sess-token")] ∧
    (signing_middleware_handle c8Openssl c8Ctx c8ReqNoBody).headers =
      [("X-Bunq-Client-Authentication", "sess-token")] :=
  ⟨(claim_C8_signing_middleware c8Openssl c8Ctx c8ReqWithBody).1 [10, 20] rfl,
   (claim_C8_signing_middleware c8Openssl c8Ctx c8ReqNoBody).2 rfl⟩

end Bunqyy
